import Mathlib

/-!
Shallow embedding of the request handlers of the Express/Mongoose e-commerce
backend in `src/index.js`.

Modelling conventions:

* Request-body fields are `Option`-valued: `none` models an absent
  (`undefined`) field.  JavaScript truthiness is made explicit at each check:
  a string is falsy exactly when it is `""`, a number exactly when it is `0`
  (`NaN` is not modelled), and an array is always truthy.
* The document store is a record of four in-memory collections.  `findOne` /
  `findById` become `List.find?`, `find` with an `$in` filter becomes
  `List.filter` by membership (each stored document is returned once), and
  `create` appends to the collection.
* Mongo object ids are strings; `mongoose.Types.ObjectId.isValid` accepts a
  24-character hex string or any 12-character string.
* `bcrypt.hash` and `bcrypt.compare` are opaque to the handlers, so they are
  taken as function parameters (`hash`, `cmp`) that values are passed through.
* Generated document ids (`_id` of a freshly created record) and the clock
  (`Date.now`) are taken as parameters (`newId`, `now`).
* Response payloads are modelled by a small JSON type that is two levels deep,
  which is the exact depth of every payload the handlers build.
* Numbers in request bodies (`amount`, `quantity`, `price`) are rationals;
  `Number.isInteger q` is `q.den = 1`.
-/

namespace Ecom

/-- Leaf JSON value appearing in the modelled response payloads. -/
inductive JLeaf where
  | str (s : String)
  | num (q : ℚ)
deriving DecidableEq

/-- A JSON value that is either a leaf or a flat object of leaves. -/
inductive JVal where
  | leaf (v : JLeaf)
  | obj (fields : List (String × JLeaf))
deriving DecidableEq

/-- A response body: a JSON object (values one level deep) or a JSON array of
flat objects.  Every body built by the handlers fits this shape. -/
inductive Json where
  | obj (fields : List (String × JVal))
  | arr (elems : List (List (String × JLeaf)))
deriving DecidableEq

/-- Whether a key occurs in a one-level JSON value. -/
def JVal.hasKey (k : String) : JVal → Bool
  | JVal.leaf _ => false
  | JVal.obj fs => fs.any (fun f => f.1 == k)

/-- Whether a key occurs anywhere (at any nesting level) in a response body. -/
def Json.hasKey (k : String) : Json → Bool
  | Json.obj fs => fs.any (fun f => f.1 == k || JVal.hasKey k f.2)
  | Json.arr objs => objs.any (fun fs => fs.any (fun f => f.1 == k))

/-- An error body `{ error: msg }`. -/
def errBody (msg : String) : Json :=
  Json.obj [("error", JVal.leaf (JLeaf.str msg))]

/-- An internal-error body `{ error: msg, details: d }`; `details` carries the
message of the caught exception. -/
def errBodyDetails (msg details : String) : Json :=
  Json.obj [("error", JVal.leaf (JLeaf.str msg)),
    ("details", JVal.leaf (JLeaf.str details))]

/-- An HTTP response: status code and JSON body. -/
structure Resp where
  status : ℕ
  body : Json
deriving DecidableEq

/-- A hexadecimal digit (used by object-id validation). -/
def isHexChar (c : Char) : Bool :=
  c.isDigit || ('a' ≤ c && c ≤ 'f') || ('A' ≤ c && c ≤ 'F')

/-- `mongoose.Types.ObjectId.isValid` on a string input: a 24-character hex
string, or any 12-character string. -/
def isValidObjectId (s : String) : Bool :=
  (s.length == 24 && s.toList.all isHexChar) || s.length == 12

/-- `Number.isInteger` on a rational request value. -/
def ratIsInt (q : ℚ) : Bool :=
  q.den == 1

/-- `base64Data.length / 1024 / 1024` — the decoded size in MiB, as a rational
(the JavaScript double arithmetic is exact at every value the handlers
compare against). -/
def fileSizeMiB (bytes : ℕ) : ℚ :=
  (bytes : ℚ) / 1024 / 1024

/-- Lines 198-201 (and 309-312): the profile-picture size gate.
`if (fileSize > 1) return 413 'Profile picture size exceeds 1MB limit'`. -/
def picSizeCheck (bytes : ℕ) : Option (ℕ × String) :=
  if fileSizeMiB bytes > 1 then some (413, "Profile picture size exceeds 1MB limit")
  else none

/-- Lines 87-90: the upload size gate.
`if (fileSize > 5) return 413 'Image size exceeds 5MB limit'`. -/
def imageSizeCheck (bytes : ℕ) : Option (ℕ × String) :=
  if fileSizeMiB bytes > 5 then some (413, "Image size exceeds 5MB limit")
  else none

/-- `Buffer.from(s, 'base64').length` for canonical base64 text: three bytes
for every four characters, with `=` padding not contributing. -/
def base64Len (s : String) : ℕ :=
  let pads := if s.endsWith "==" then 2 else if s.endsWith "=" then 1 else 0
  3 * (s.length - pads) / 4

/-- A word character, as matched by the regex class `\w`. -/
def isWordChar (c : Char) : Bool :=
  c.isAlphanum || c == '_'

/-- `s.replace(/^data:image\/\w+;base64,/, '')`: strip the data-URI header
when it matches, otherwise return the string unchanged. -/
def stripDataImageHead (s : String) : String :=
  if s.startsWith "data:image/" then
    let rest := s.drop 11
    let w := rest.takeWhile isWordChar
    let rest2 := rest.drop w.length
    if w.length > 0 && rest2.startsWith ";base64," then rest2.drop 8 else s
  else s

/-- `s.split(';')[0].split('/')[1]`: the declared image subtype of a data-URI
(an out-of-range index, JavaScript `undefined`, is modelled as `""`, which the
membership check downstream rejects just as `undefined` is rejected). -/
def dataUriType (s : String) : String :=
  (((s.splitOn ";").headD "").splitOn "/").getD 1 ""

/-- A stored User or Admin document (the two schemas are field-for-field
identical, lines 29-46). -/
structure AccountDoc where
  _id : String
  firstName : String
  secondName : String
  email : String
  password : String
  profilePicture : String
deriving DecidableEq

/-- A stored Image (product) document, lines 49-55. -/
structure ImageDoc where
  _id : String
  url : String
  name : String
  price : ℚ
  description : String
deriving DecidableEq

/-- One line item of an order: `{ productId, quantity }`. -/
structure OrderItem where
  productId : String
  quantity : ℚ
deriving DecidableEq

/-- A stored Order document, lines 57-70.  `paymentStatus` and `createdAt`
have schema defaults `'pending'` and `Date.now`. -/
structure OrderDoc where
  userId : String
  products : List OrderItem
  name : String
  address : String
  paymentType : String
  amount : ℚ
  paymentStatus : String
  createdAt : ℕ
deriving DecidableEq

/-- The document store: the four collections. -/
structure DB where
  users : List AccountDoc
  admins : List AccountDoc
  images : List ImageDoc
  orders : List OrderDoc
deriving DecidableEq

/-- The fields a registration request body is destructured into (line 178 and
line 289). -/
structure RegReq where
  firstName : Option String
  secondName : Option String
  email : Option String
  password : Option String
  profilePicture : Option String
deriving DecidableEq

/-- The fields an order-creation request body is destructured into (line 371),
plus the caller-supplied `paymentStatus`, which the handler never reads. -/
structure OrderReq where
  userId : Option String
  products : Option (List OrderItem)
  name : Option String
  address : Option String
  paymentType : Option String
  amount : Option ℚ
  paymentStatus : Option String
deriving DecidableEq

/-- The `-password` projection used by the profile and list endpoints: every
stored field except `password`. -/
def accountNoPassword (a : AccountDoc) : List (String × JLeaf) :=
  [("_id", JLeaf.str a._id), ("firstName", JLeaf.str a.firstName),
    ("secondName", JLeaf.str a.secondName), ("email", JLeaf.str a.email),
    ("profilePicture", JLeaf.str a.profilePicture)]

/-- Serialisation of a stored Image document. -/
def imageFields (i : ImageDoc) : List (String × JLeaf) :=
  [("_id", JLeaf.str i._id), ("url", JLeaf.str i.url),
    ("name", JLeaf.str i.name), ("price", JLeaf.num i.price),
    ("description", JLeaf.str i.description)]

/-- Lines 188-203 (and 299-314): validation of an optional profile picture.
Returns the value to store (`''` when no picture was supplied) or the error
response to send. -/
def profilePicCheck (profilePicture : Option String) : Except (ℕ × String) String :=
  match profilePicture with
  | none => Except.ok ""
  | some pic =>
    if pic = "" then Except.ok ""
    else if !pic.startsWith "data:image/" then
      Except.error (400, "Invalid base64 image format")
    else
      let base64Data := stripDataImageHead pic
      let type := dataUriType pic
      if !(["jpeg", "jpg", "png"].contains type) then
        Except.error (400, "Invalid image format. Use JPEG or PNG")
      else
        match picSizeCheck (base64Len base64Data) with
        | some e => Except.error e
        | none => Except.ok pic

/-- The body of `POST /create-users` after destructuring (lines 290-327):
the falsy-field check, the duplicate-email lookup, the optional picture
validation, then `create`. -/
def createUsersChecked (db : DB) (hash : String → String) (newId : String)
    (firstName secondName email password : String)
    (profilePicture : Option String) : Resp × DB :=
  if firstName = "" ∨ secondName = "" ∨ email = "" ∨ password = "" then
    (⟨400, errBody "All fields are required"⟩, db)
  else
    match db.users.find? (fun u => u.email == email) with
    | some _ => (⟨400, errBody "Email already registered"⟩, db)
    | none =>
      match profilePicCheck profilePicture with
      | Except.error e => (⟨e.1, errBody e.2⟩, db)
      | Except.ok profilePicData =>
        let doc : AccountDoc :=
          ⟨newId, firstName, secondName, email, hash password, profilePicData⟩
        (⟨201, Json.obj [("message", JVal.leaf (JLeaf.str "User registered successfully")),
            ("user", JVal.obj [("firstName", JLeaf.str firstName),
              ("email", JLeaf.str email),
              ("profilePicture", JLeaf.str profilePicData)])]⟩,
          { db with users := db.users ++ [doc] })

/-- `POST /create-users` (lines 287-332).  `hash` models `bcrypt.hash`,
`newId` the id Mongo generates for the created document. -/
def createUsers (db : DB) (hash : String → String) (newId : String)
    (req : RegReq) : Resp × DB :=
  match req.firstName, req.secondName, req.email, req.password with
  | some firstName, some secondName, some email, some password =>
    createUsersChecked db hash newId firstName secondName email password req.profilePicture
  | _, _, _, _ => (⟨400, errBody "All fields are required"⟩, db)

/-- The body of `POST /create-admins` after destructuring (lines 179-216):
identical to `createUsersChecked` except for the collection and wording. -/
def createAdminsChecked (db : DB) (hash : String → String) (newId : String)
    (firstName secondName email password : String)
    (profilePicture : Option String) : Resp × DB :=
  if firstName = "" ∨ secondName = "" ∨ email = "" ∨ password = "" then
    (⟨400, errBody "All fields are required"⟩, db)
  else
    match db.admins.find? (fun a => a.email == email) with
    | some _ => (⟨400, errBody "Email already registered"⟩, db)
    | none =>
      match profilePicCheck profilePicture with
      | Except.error e => (⟨e.1, errBody e.2⟩, db)
      | Except.ok profilePicData =>
        let doc : AccountDoc :=
          ⟨newId, firstName, secondName, email, hash password, profilePicData⟩
        (⟨201, Json.obj [("message", JVal.leaf (JLeaf.str "Admin registered successfully")),
            ("admin", JVal.obj [("firstName", JLeaf.str firstName),
              ("email", JLeaf.str email),
              ("profilePicture", JLeaf.str profilePicData)])]⟩,
          { db with admins := db.admins ++ [doc] })

/-- `POST /create-admins` (lines 176-221). -/
def createAdmins (db : DB) (hash : String → String) (newId : String)
    (req : RegReq) : Resp × DB :=
  match req.firstName, req.secondName, req.email, req.password with
  | some firstName, some secondName, some email, some password =>
    createAdminsChecked db hash newId firstName secondName email password req.profilePicture
  | _, _, _, _ => (⟨400, errBody "All fields are required"⟩, db)

/-- The body of `POST /user-login` after destructuring (lines 338-361). -/
def userLoginChecked (db : DB) (cmp : String → String → Bool)
    (e p : String) : Resp :=
  if e = "" ∨ p = "" then ⟨400, errBody "Email and password are required"⟩
  else
    match db.users.find? (fun u => u.email == e) with
    | none => ⟨401, errBody "Invalid email or password"⟩
    | some u =>
      if !cmp p u.password then ⟨401, errBody "Invalid email or password"⟩
      else ⟨200, Json.obj [("message", JVal.leaf (JLeaf.str "Login successful")),
        ("user", JVal.obj [("_id", JLeaf.str u._id),
          ("firstName", JLeaf.str u.firstName),
          ("secondName", JLeaf.str u.secondName),
          ("email", JLeaf.str u.email),
          ("profilePicture", JLeaf.str u.profilePicture)])]⟩

/-- `POST /user-login` (lines 335-366).  `cmp` models `bcrypt.compare`. -/
def userLogin (db : DB) (cmp : String → String → Bool)
    (email password : Option String) : Resp :=
  match email, password with
  | some e, some p => userLoginChecked db cmp e p
  | _, _ => ⟨400, errBody "Email and password are required"⟩

/-- The body of `POST /admin-login` after destructuring (lines 227-248). -/
def adminLoginChecked (db : DB) (cmp : String → String → Bool)
    (e p : String) : Resp :=
  if e = "" ∨ p = "" then ⟨400, errBody "Email and password are required"⟩
  else
    match db.admins.find? (fun a => a.email == e) with
    | none => ⟨401, errBody "Invalid email or password"⟩
    | some a =>
      if !cmp p a.password then ⟨401, errBody "Invalid email or password"⟩
      else ⟨200, Json.obj [("message", JVal.leaf (JLeaf.str "Login successful")),
        ("admin", JVal.obj [("firstName", JLeaf.str a.firstName),
          ("email", JLeaf.str a.email),
          ("profilePicture", JLeaf.str a.profilePicture)])]⟩

/-- `POST /admin-login` (lines 224-253). -/
def adminLogin (db : DB) (cmp : String → String → Bool)
    (email password : Option String) : Resp :=
  match email, password with
  | some e, some p => adminLoginChecked db cmp e p
  | _, _ => ⟨400, errBody "Email and password are required"⟩

/-- `GET /admin/profile` (lines 256-273): `findOne({ email }, '-password')`. -/
def adminProfile (db : DB) (email : Option String) : Resp :=
  match email with
  | some e =>
    if e = "" then ⟨400, errBody "Email is required"⟩
    else
      match db.admins.find? (fun a => a.email == e) with
      | none => ⟨404, errBody "Admin not found"⟩
      | some a => ⟨200, Json.obj [("admin", JVal.obj (accountNoPassword a))]⟩
  | none => ⟨400, errBody "Email is required"⟩

/-- `GET /admin/admins` (lines 276-284): `find({}, '-password')`. -/
def getAdmins (db : DB) : Resp :=
  ⟨200, Json.arr (db.admins.map accountNoPassword)⟩

/-- `GET /admin/users` (lines 450-458): `find({}, '-password')`. -/
def getUsers (db : DB) : Resp :=
  ⟨200, Json.arr (db.users.map accountNoPassword)⟩

/-- The JSON value of the `ids` field of a `/cart-items` body: absent, present
but not an array, or an array of strings. -/
inductive IdsVal where
  | missing
  | nonArray
  | arr (ids : List String)
deriving DecidableEq

/-- Placeholder for the driver's cast-error message that the catch block
forwards in the `details` field. -/
def castErrorMsg : String := "Cast to ObjectId failed"

/-- `POST /cart-items` (lines 128-140).  A non-array `ids` is rejected with
400; with an array, Mongoose casts every element of the `$in` list, and a
syntactically invalid id makes the query throw, which the catch block turns
into a 500. -/
def cartItems (db : DB) (ids : IdsVal) : Resp :=
  match ids with
  | IdsVal.arr l =>
    if l.all isValidObjectId then
      ⟨200, Json.arr ((db.images.filter (fun img => l.contains img._id)).map imageFields)⟩
    else
      ⟨500, errBodyDetails "Fetch failed" castErrorMsg⟩
  | _ => ⟨400, errBody "IDs must be an array"⟩

/-- Lines 380-387: the per-line-item validation loop.  Returns the message of
the first failing 400 response, or `none` when every item passes. -/
def validateItems : List OrderItem → Option String
  | [] => none
  | item :: rest =>
    if !isValidObjectId item.productId then
      some ("Invalid product ID: " ++ item.productId)
    else if !ratIsInt item.quantity || item.quantity < 1 then
      some ("Invalid quantity for product " ++ item.productId)
    else validateItems rest

/-- The outcome of `POST /create-order`: status, error message (when any),
the created document (when any), and the resulting store. -/
structure OrderRes where
  status : ℕ
  error : Option String
  order : Option OrderDoc
  db : DB
deriving DecidableEq

/-- `POST /create-order` (lines 369-414).  `now` models `Date.now`.  The
destructuring plus `!field` checks of line 372 become the six-way match and
the emptiness/zero tests; the batch product lookup of lines 394-396 compares
the number of found documents with the length of the raw (not deduplicated)
list of requested ids.  `Order.create` (line 400) receives no
`paymentStatus` and no `createdAt`, so the schema defaults `'pending'` and
the current time apply. -/
def createOrderChecked (db : DB) (now : ℕ) (userId : String)
    (products : List OrderItem) (name address paymentType : String)
    (amount : ℚ) : OrderRes :=
  if userId = "" ∨ name = "" ∨ address = "" ∨ paymentType = "" ∨ amount = 0 then
    ⟨400, some "All fields are required", none, db⟩
  else if !isValidObjectId userId then
    ⟨400, some "Invalid user ID", none, db⟩
  else
    match validateItems products with
    | some msg => ⟨400, some msg, none, db⟩
    | none =>
      match db.users.find? (fun u => u._id == userId) with
      | none => ⟨404, some "User not found", none, db⟩
      | some _ =>
        if (db.images.filter (fun img =>
              (products.map (fun p => p.productId)).contains img._id)).length
            ≠ (products.map (fun p => p.productId)).length then
          ⟨404, some "One or more products not found", none, db⟩
        else
          let order : OrderDoc :=
            ⟨userId, products, name, address, paymentType, amount, "pending", now⟩
          ⟨201, none, some order, { db with orders := db.orders ++ [order] }⟩

/-- `POST /create-order`, destructuring step of line 371-372. -/
def createOrder (db : DB) (now : ℕ) (req : OrderReq) : OrderRes :=
  match req.userId, req.products, req.name, req.address, req.paymentType, req.amount with
  | some userId, some products, some name, some address, some paymentType, some amount =>
    createOrderChecked db now userId products name address paymentType amount
  | _, _, _, _, _, _ => ⟨400, some "All fields are required", none, db⟩

/-! Concrete sample documents, used by the witnesses and counterexamples. -/

/-- A valid 24-hex-character object id. -/
def uidA : String := "aaaaaaaaaaaaaaaaaaaaaaaa"

/-- A valid object id of a stored product. -/
def pidB : String := "bbbbbbbbbbbbbbbbbbbbbbbb"

/-- A valid object id of a second stored product. -/
def pidC : String := "cccccccccccccccccccccccc"

/-- A stored user (also reused as a stored admin). -/
def userA : AccountDoc := ⟨uidA, "Alice", "Smith", "a@b.com", "hashedpw", ""⟩

/-- A stored product. -/
def imgB : ImageDoc := ⟨pidB, "https://bucket/x.png", "X", 10, ""⟩

/-- A second stored product. -/
def imgC : ImageDoc := ⟨pidC, "https://bucket/y.png", "Y", 20, ""⟩

/-- A sample store: one user, one admin, two products, no orders. -/
def db0 : DB := ⟨[userA], [userA], [imgB, imgC], []⟩

/-! Theorems. -/

/-- Structural case analysis of `createOrder`: either it succeeds with 201 and
the created order (paymentStatus `"pending"`, createdAt `now`) is appended to
the orders collection, or it fails and the store is returned untouched. -/
theorem createOrder_spec (db : DB) (now : ℕ) (req : OrderReq) :
    ((createOrder db now req).status = 201 ∧
      ∃ o, (createOrder db now req).order = some o ∧ o.paymentStatus = "pending" ∧
        o.createdAt = now ∧
        (createOrder db now req).db = { db with orders := db.orders ++ [o] })
    ∨ ((createOrder db now req).status ≠ 201 ∧ (createOrder db now req).order = none ∧
        (createOrder db now req).db = db) := by
  rcases req with ⟨u, p, n, a, t, m, ps⟩
  rcases u with _ | u <;> rcases p with _ | p <;> rcases n with _ | n <;>
    rcases a with _ | a <;> rcases t with _ | t <;> rcases m with _ | m <;>
    try exact Or.inr ⟨(by decide : (400:ℕ) ≠ 201), rfl, rfl⟩
  show ((createOrderChecked db now u p n a t m).status = 201 ∧
      ∃ o, (createOrderChecked db now u p n a t m).order = some o ∧
        o.paymentStatus = "pending" ∧ o.createdAt = now ∧
        (createOrderChecked db now u p n a t m).db = { db with orders := db.orders ++ [o] })
    ∨ ((createOrderChecked db now u p n a t m).status ≠ 201 ∧
        (createOrderChecked db now u p n a t m).order = none ∧
        (createOrderChecked db now u p n a t m).db = db)
  unfold createOrderChecked
  split
  · exact Or.inr ⟨(by decide : (400:ℕ) ≠ 201), rfl, rfl⟩
  · split
    · exact Or.inr ⟨(by decide : (400:ℕ) ≠ 201), rfl, rfl⟩
    · split
      · exact Or.inr ⟨(by decide : (400:ℕ) ≠ 201), rfl, rfl⟩
      · split
        · exact Or.inr ⟨(by decide : (404:ℕ) ≠ 201), rfl, rfl⟩
        · split
          · exact Or.inr ⟨(by decide : (404:ℕ) ≠ 201), rfl, rfl⟩
          · exact Or.inl ⟨rfl, _, rfl, rfl, rfl, rfl⟩

/-- C2: every successfully created order is stored with `paymentStatus`
`"pending"` and `createdAt` equal to the creation instant, and the handler is
insensitive to any caller-supplied `paymentStatus`. -/
theorem createOrder_paymentStatus_pending (db : DB) (now : ℕ) (req : OrderReq)
    (h : (createOrder db now req).status = 201) :
    (∃ o, (createOrder db now req).order = some o ∧ o.paymentStatus = "pending" ∧
      o.createdAt = now ∧ (createOrder db now req).db.orders = db.orders ++ [o]) ∧
    ∀ ps, createOrder db now { req with paymentStatus := ps } = createOrder db now req := by
  constructor
  · rcases createOrder_spec db now req with ⟨_, o, ho, hp, hc, hdb⟩ | ⟨hne, _, _⟩
    · exact ⟨o, ho, hp, hc, by rw [hdb]⟩
    · exact absurd h hne
  · intro ps
    rcases req with ⟨u, p, n, a, t, m, ps0⟩
    rfl

/-- A concrete successful order creation, exercising C2. -/
def reqC2 : OrderReq :=
  ⟨some uidA, some [⟨pidB, 2⟩], some "Alice", some "12 Road", some "cod", some 30, some "paid"⟩

/-- Witness for C2: a concrete order creation succeeds and stores
paymentStatus "pending" and createdAt 5, ignoring the supplied "paid". -/
theorem createOrder_paymentStatus_pending_witness :
    (∃ o, (createOrder db0 5 reqC2).order = some o ∧ o.paymentStatus = "pending" ∧
      o.createdAt = 5 ∧ (createOrder db0 5 reqC2).db.orders = db0.orders ++ [o]) ∧
    ∀ ps, createOrder db0 5 { reqC2 with paymentStatus := ps } = createOrder db0 5 reqC2 :=
  createOrder_paymentStatus_pending db0 5 reqC2 (by decide)

/-- C3: whenever order creation fails (any non-201 outcome: missing fields,
bad formats, bad quantity, unknown user, unresolved product), nothing is
written — the store is returned unchanged and no order document exists. -/
theorem createOrder_failure_no_write (db : DB) (now : ℕ) (req : OrderReq)
    (h : (createOrder db now req).status ≠ 201) :
    (createOrder db now req).db = db ∧ (createOrder db now req).order = none := by
  rcases createOrder_spec db now req with ⟨h201, _⟩ | ⟨_, ho, hdb⟩
  · exact absurd h201 h
  · exact ⟨hdb, ho⟩

/-- An order request whose userId is valid but matches no stored user. -/
def reqC3 : OrderReq :=
  ⟨some pidC, some [⟨pidB, 1⟩], some "A", some "B", some "cod", some 3, none⟩

/-- Witness for C3 at a concrete failing request (user not found, 404). -/
theorem createOrder_failure_no_write_witness :
    (createOrder db0 0 reqC3).db = db0 ∧ (createOrder db0 0 reqC3).order = none :=
  createOrder_failure_no_write db0 0 reqC3 (by decide)

/-- Counting lemma for the batch product lookup: with pairwise-distinct
requested ids, distinct stored ids, and every requested id resolving, the
filter returns exactly one stored document per requested id. -/
theorem filter_contains_length (imgs : List ImageDoc) (pids : List String)
    (himgs : (imgs.map (fun i => i._id)).Nodup) (hpids : pids.Nodup)
    (hres : ∀ pid ∈ pids, ∃ img ∈ imgs, img._id = pid) :
    (imgs.filter (fun i => pids.contains i._id)).length = pids.length := by
  rw [← List.length_map (imgs.filter (fun i => pids.contains i._id)) (fun i => i._id)]
  have hsub : ((imgs.filter (fun i => pids.contains i._id)).map (fun i => i._id)).Sublist
      (imgs.map (fun i => i._id)) :=
    (List.filter_sublist imgs).map (fun i => i._id)
  have hnd : ((imgs.filter (fun i => pids.contains i._id)).map (fun i => i._id)).Nodup :=
    himgs.sublist hsub
  have hmem : ∀ s : String,
      s ∈ (imgs.filter (fun i => pids.contains i._id)).map (fun i => i._id) ↔ s ∈ pids := by
    intro s
    constructor
    · intro hs
      rcases List.mem_map.mp hs with ⟨i, hi, hip⟩
      rcases List.mem_filter.mp hi with ⟨_, hcontains⟩
      have : i._id ∈ pids := by simpa using hcontains
      rwa [hip] at this
    · intro hs
      rcases hres s hs with ⟨img, himg, hid⟩
      refine List.mem_map.mpr ⟨img, List.mem_filter.mpr ⟨himg, ?_⟩, hid⟩
      simp [hid, hs]
  exact ((List.perm_ext_iff_of_nodup hnd hpids).mpr hmem).length_eq

/-- Success lemma for the order workflow: with all fields truthy, a valid and
resolving userId, items that pass the per-item loop, and a batch lookup that
returns as many documents as there are line items, the order is persisted. -/
theorem createOrder_success (db : DB) (now : ℕ) (uid nm ad pt : String) (am : ℚ)
    (ps : Option String) (prods : List OrderItem)
    (hu : uid ≠ "") (hn : nm ≠ "") (ha : ad ≠ "") (hp : pt ≠ "") (ham : am ≠ 0)
    (huv : isValidObjectId uid = true)
    (hitems : validateItems prods = none)
    (huser : (db.users.find? (fun u => u._id == uid)).isSome = true)
    (hcount : (db.images.filter (fun img =>
        (prods.map (fun p => p.productId)).contains img._id)).length
      = (prods.map (fun p => p.productId)).length) :
    (createOrder db now ⟨some uid, some prods, some nm, some ad, some pt, some am, ps⟩).status = 201 ∧
    (createOrder db now ⟨some uid, some prods, some nm, some ad, some pt, some am, ps⟩).db.orders
      = db.orders ++ [⟨uid, prods, nm, ad, pt, am, "pending", now⟩] := by
  obtain ⟨usr, hfind⟩ := Option.isSome_iff_exists.mp huser
  show (createOrderChecked db now uid prods nm ad pt am).status = 201 ∧
    (createOrderChecked db now uid prods nm ad pt am).db.orders
      = db.orders ++ [⟨uid, prods, nm, ad, pt, am, "pending", now⟩]
  unfold createOrderChecked
  rw [if_neg (by simp [hu, hn, ha, hp, ham]), if_neg (by simp [huv]), hitems, hfind,
    if_neg (not_ne_iff.mpr hcount)]
  exact ⟨rfl, rfl⟩

/-- C1 (amended): when the line-item productIds are pairwise distinct, all
syntactically valid, all resolving to stored products, the userId valid and
resolving, the required fields truthy and the quantities valid, the product
existence check passes and the order is persisted with 201. -/
theorem createOrder_distinct_products_persist (db : DB) (now : ℕ)
    (uid nm ad pt : String) (am : ℚ) (ps : Option String) (prods : List OrderItem)
    (hu : uid ≠ "") (hn : nm ≠ "") (ha : ad ≠ "") (hp : pt ≠ "") (ham : am ≠ 0)
    (huv : isValidObjectId uid = true)
    (hitems : validateItems prods = none)
    (huser : (db.users.find? (fun u => u._id == uid)).isSome = true)
    (hnodup : (prods.map (fun p => p.productId)).Nodup)
    (himgs : (db.images.map (fun i => i._id)).Nodup)
    (hres : ∀ pid ∈ prods.map (fun p => p.productId), ∃ img ∈ db.images, img._id = pid) :
    (createOrder db now ⟨some uid, some prods, some nm, some ad, some pt, some am, ps⟩).status = 201 ∧
    (createOrder db now ⟨some uid, some prods, some nm, some ad, some pt, some am, ps⟩).db.orders
      = db.orders ++ [⟨uid, prods, nm, ad, pt, am, "pending", now⟩] :=
  createOrder_success db now uid nm ad pt am ps prods hu hn ha hp ham huv hitems huser
    (filter_contains_length db.images (prods.map (fun p => p.productId)) himgs hnodup hres)

/-- Witness for C1 (amended): two distinct existing products, order created. -/
theorem createOrder_distinct_products_persist_witness :
    (createOrder db0 9 ⟨some uidA, some [⟨pidB, 1⟩, ⟨pidC, 3⟩], some "A", some "B",
      some "cod", some 50, none⟩).status = 201 ∧
    (createOrder db0 9 ⟨some uidA, some [⟨pidB, 1⟩, ⟨pidC, 3⟩], some "A", some "B",
      some "cod", some 50, none⟩).db.orders
      = db0.orders ++ [⟨uidA, [⟨pidB, 1⟩, ⟨pidC, 3⟩], "A", "B", "cod", 50, "pending", 9⟩] :=
  createOrder_distinct_products_persist db0 9 uidA "A" "B" "cod" 50 none
    [⟨pidB, 1⟩, ⟨pidC, 3⟩] (by decide) (by decide) (by decide) (by decide) (by decide)
    (by decide) (by decide) (by decide) (by decide) (by decide) (by decide)

/-- C1 is false as stated: with the same (existing) productId referenced in
two line items, every premise of the claim holds, yet the handler answers 404
"One or more products not found" and persists nothing, because the batch
lookup result (one document) is compared with the raw line-item count (two). -/
theorem createOrder_duplicate_product_404 :
    isValidObjectId pidB = true ∧
    (db0.users.find? (fun u => u._id == uidA)).isSome = true ∧
    (db0.images.find? (fun i => i._id == pidB)).isSome = true ∧
    (createOrder db0 0 ⟨some uidA, some [⟨pidB, 1⟩, ⟨pidB, 2⟩], some "A", some "B",
      some "cod", some 30, none⟩).status = 404 ∧
    (createOrder db0 0 ⟨some uidA, some [⟨pidB, 1⟩, ⟨pidB, 2⟩], some "A", some "B",
      some "cod", some 30, none⟩).error = some "One or more products not found" ∧
    (createOrder db0 0 ⟨some uidA, some [⟨pidB, 1⟩, ⟨pidB, 2⟩], some "A", some "B",
      some "cod", some 30, none⟩).db = db0 := by decide

/-- C4 (amended): an empty products list is not rejected — an empty array is
truthy, the item loop and the batch lookup pass vacuously, and when the other
fields are truthy and the userId valid and resolving, an order with zero line
items is persisted with 201. -/
theorem createOrder_empty_products_persist (db : DB) (now : ℕ)
    (uid nm ad pt : String) (am : ℚ) (ps : Option String)
    (hu : uid ≠ "") (hn : nm ≠ "") (ha : ad ≠ "") (hp : pt ≠ "") (ham : am ≠ 0)
    (huv : isValidObjectId uid = true)
    (huser : (db.users.find? (fun u => u._id == uid)).isSome = true) :
    (createOrder db now ⟨some uid, some [], some nm, some ad, some pt, some am, ps⟩).status = 201 ∧
    (createOrder db now ⟨some uid, some [], some nm, some ad, some pt, some am, ps⟩).db.orders
      = db.orders ++ [⟨uid, [], nm, ad, pt, am, "pending", now⟩] :=
  createOrder_success db now uid nm ad pt am ps [] hu hn ha hp ham huv rfl huser
    (by simp [List.contains])

/-- Witness for C4 (amended): a concrete empty-products order is persisted. -/
theorem createOrder_empty_products_persist_witness :
    (createOrder db0 3 ⟨some uidA, some [], some "A", some "B", some "cod", some 7,
      none⟩).status = 201 ∧
    (createOrder db0 3 ⟨some uidA, some [], some "A", some "B", some "cod", some 7,
      none⟩).db.orders = db0.orders ++ [⟨uidA, [], "A", "B", "cod", 7, "pending", 3⟩] :=
  createOrder_empty_products_persist db0 3 uidA "A" "B" "cod" 7 none
    (by decide) (by decide) (by decide) (by decide) (by decide) (by decide) (by decide)

/-- C4 is false as stated: a payload with `products: []` and all other fields
valid is not answered with 400 — the order is created with status 201. -/
theorem createOrder_empty_products_cex :
    (createOrder db0 3 ⟨some uidA, some [], some "A", some "B", some "cod", some 7,
      none⟩).status = 201 ∧
    (createOrder db0 3 ⟨some uidA, some [], some "A", some "B", some "cod", some 7,
      none⟩).db.orders = [⟨uidA, [], "A", "B", "cod", 7, "pending", 3⟩] := by decide

/-- C5 (amended): a payload carrying `amount = 0` is always rejected with 400
"All fields are required" — the truthiness-based required-field check treats
the number zero as missing — and nothing is written. -/
theorem createOrder_zero_amount_rejected (db : DB) (now : ℕ) (req : OrderReq)
    (h : req.amount = some 0) :
    (createOrder db now req).status = 400 ∧
    (createOrder db now req).error = some "All fields are required" ∧
    (createOrder db now req).db = db := by
  rcases req with ⟨u, p, n, a, t, m, ps⟩
  dsimp only at h
  subst h
  rcases u with _ | u <;> rcases p with _ | p <;> rcases n with _ | n <;>
    rcases a with _ | a <;> rcases t with _ | t <;>
    try exact ⟨rfl, rfl, rfl⟩
  show (createOrderChecked db now u p n a t 0).status = 400 ∧
    (createOrderChecked db now u p n a t 0).error = some "All fields are required" ∧
    (createOrderChecked db now u p n a t 0).db = db
  unfold createOrderChecked
  rw [if_pos (by simp)]
  exact ⟨rfl, rfl, rfl⟩

/-- Witness for C5 (amended) at a concrete request with amount zero. -/
theorem createOrder_zero_amount_rejected_witness :
    (createOrder db0 0 ⟨some uidA, some [⟨pidB, 1⟩], some "A", some "B", some "cod",
      some 0, none⟩).status = 400 ∧
    (createOrder db0 0 ⟨some uidA, some [⟨pidB, 1⟩], some "A", some "B", some "cod",
      some 0, none⟩).error = some "All fields are required" ∧
    (createOrder db0 0 ⟨some uidA, some [⟨pidB, 1⟩], some "A", some "B", some "cod",
      some 0, none⟩).db = db0 :=
  createOrder_zero_amount_rejected db0 0 _ rfl

/-- C5 is false as stated: a payload in which every field is present, the ids
valid and resolving, but `amount = 0`, fails the required-field check. -/
theorem createOrder_zero_amount_cex :
    isValidObjectId uidA = true ∧
    (db0.users.find? (fun u => u._id == uidA)).isSome = true ∧
    (db0.images.find? (fun i => i._id == pidB)).isSome = true ∧
    (createOrder db0 0 ⟨some uidA, some [⟨pidB, 1⟩], some "A", some "B", some "cod",
      some 0, none⟩).status = 400 ∧
    (createOrder db0 0 ⟨some uidA, some [⟨pidB, 1⟩], some "A", some "B", some "cod",
      some 0, none⟩).error = some "All fields are required" := by decide

/-- C6: for user login and admin login alike, an unknown email and a known
email with a non-matching password produce the identical response: status 401
with body `{ error: "Invalid email or password" }` — so the response does not
reveal whether the email exists. -/
theorem login_uniform_failure (db1 db2 db3 db4 : DB)
    (cmp1 cmp2 cmp3 cmp4 : String → String → Bool)
    (e1 p1 e2 p2 e3 p3 e4 p4 : String)
    (he1 : e1 ≠ "") (hp1 : p1 ≠ "")
    (h1 : db1.users.find? (fun u => u.email == e1) = none)
    (he2 : e2 ≠ "") (hp2 : p2 ≠ "")
    (h2s : (db2.users.find? (fun u => u.email == e2)).isSome = true)
    (h2 : ∀ u ∈ db2.users, cmp2 p2 u.password = false)
    (he3 : e3 ≠ "") (hp3 : p3 ≠ "")
    (h3 : db3.admins.find? (fun a => a.email == e3) = none)
    (he4 : e4 ≠ "") (hp4 : p4 ≠ "")
    (h4s : (db4.admins.find? (fun a => a.email == e4)).isSome = true)
    (h4 : ∀ a ∈ db4.admins, cmp4 p4 a.password = false) :
    userLogin db1 cmp1 (some e1) (some p1) = ⟨401, errBody "Invalid email or password"⟩ ∧
    userLogin db2 cmp2 (some e2) (some p2) = ⟨401, errBody "Invalid email or password"⟩ ∧
    adminLogin db3 cmp3 (some e3) (some p3) = ⟨401, errBody "Invalid email or password"⟩ ∧
    adminLogin db4 cmp4 (some e4) (some p4) = ⟨401, errBody "Invalid email or password"⟩ := by
  refine ⟨?_, ?_, ?_, ?_⟩
  · show userLoginChecked db1 cmp1 e1 p1 = _
    unfold userLoginChecked
    rw [if_neg (by simp [he1, hp1]), h1]
  · show userLoginChecked db2 cmp2 e2 p2 = _
    unfold userLoginChecked
    rw [if_neg (by simp [he2, hp2])]
    obtain ⟨u, hfind⟩ := Option.isSome_iff_exists.mp h2s
    rw [hfind]
    dsimp only
    rw [h2 u (List.mem_of_find?_eq_some hfind)]
    rfl
  · show adminLoginChecked db3 cmp3 e3 p3 = _
    unfold adminLoginChecked
    rw [if_neg (by simp [he3, hp3]), h3]
  · show adminLoginChecked db4 cmp4 e4 p4 = _
    unfold adminLoginChecked
    rw [if_neg (by simp [he4, hp4])]
    obtain ⟨a, hfind⟩ := Option.isSome_iff_exists.mp h4s
    rw [hfind]
    dsimp only
    rw [h4 a (List.mem_of_find?_eq_some hfind)]
    rfl

/-- Witness for C6: in the sample store, login with an unknown email and
login with the stored email but a wrong password give the same 401. -/
theorem login_uniform_failure_witness :
    userLogin db0 (fun p h => p == h) (some "nobody@b.com") (some "x")
      = ⟨401, errBody "Invalid email or password"⟩ ∧
    userLogin db0 (fun p h => p == h) (some "a@b.com") (some "wrong")
      = ⟨401, errBody "Invalid email or password"⟩ ∧
    adminLogin db0 (fun p h => p == h) (some "nobody@b.com") (some "x")
      = ⟨401, errBody "Invalid email or password"⟩ ∧
    adminLogin db0 (fun p h => p == h) (some "a@b.com") (some "wrong")
      = ⟨401, errBody "Invalid email or password"⟩ :=
  login_uniform_failure db0 db0 db0 db0 _ _ _ _
    "nobody@b.com" "x" "a@b.com" "wrong" "nobody@b.com" "x" "a@b.com" "wrong"
    (by decide) (by decide) (by decide) (by decide) (by decide) (by decide)
    (by decide) (by decide) (by decide) (by decide) (by decide) (by decide)
    (by decide) (by decide)

/-- The `-password` projection of an account never yields a password key. -/
theorem accountNoPassword_no_password (a : AccountDoc) :
    (accountNoPassword a).any (fun f => f.1 == "password") = false := rfl

/-- A serialised account list never contains a password key. -/
theorem arr_accounts_no_password (l : List AccountDoc) :
    (Json.arr (l.map accountNoPassword)).hasKey "password" = false := by
  induction l with
  | nil => rfl
  | cons a t ih =>
    show ((accountNoPassword a).any (fun f => f.1 == "password")
      || (t.map accountNoPassword).any (fun fs => fs.any (fun f => f.1 == "password"))) = false
    rw [accountNoPassword_no_password, Bool.false_or]
    exact ih

/-- C7: no response body of any account-handling endpoint — registration,
login, profile, or account listing, on any input and any store — contains a
`password` key at any nesting depth. -/
theorem no_password_in_responses (db : DB) (hash : String → String)
    (newId : String) (req : RegReq) (cmp : String → String → Bool)
    (email password profEmail : Option String) :
    (createUsers db hash newId req).1.body.hasKey "password" = false ∧
    (createAdmins db hash newId req).1.body.hasKey "password" = false ∧
    (userLogin db cmp email password).body.hasKey "password" = false ∧
    (adminLogin db cmp email password).body.hasKey "password" = false ∧
    (adminProfile db profEmail).body.hasKey "password" = false ∧
    (getAdmins db).body.hasKey "password" = false ∧
    (getUsers db).body.hasKey "password" = false := by
  refine ⟨?_, ?_, ?_, ?_, ?_, ?_, ?_⟩
  · rcases req with ⟨f, s, e, pw, pic⟩
    rcases f with _ | f <;> rcases s with _ | s <;> rcases e with _ | e <;>
      rcases pw with _ | pw <;> try rfl
    show (createUsersChecked db hash newId f s e pw pic).1.body.hasKey "password" = false
    unfold createUsersChecked
    split
    · rfl
    · split
      · rfl
      · split
        · rfl
        · rfl
  · rcases req with ⟨f, s, e, pw, pic⟩
    rcases f with _ | f <;> rcases s with _ | s <;> rcases e with _ | e <;>
      rcases pw with _ | pw <;> try rfl
    show (createAdminsChecked db hash newId f s e pw pic).1.body.hasKey "password" = false
    unfold createAdminsChecked
    split
    · rfl
    · split
      · rfl
      · split
        · rfl
        · rfl
  · rcases email with _ | e <;> rcases password with _ | p <;> try rfl
    show (userLoginChecked db cmp e p).body.hasKey "password" = false
    unfold userLoginChecked
    split
    · rfl
    · split
      · rfl
      · split
        · rfl
        · rfl
  · rcases email with _ | e <;> rcases password with _ | p <;> try rfl
    show (adminLoginChecked db cmp e p).body.hasKey "password" = false
    unfold adminLoginChecked
    split
    · rfl
    · split
      · rfl
      · split
        · rfl
        · rfl
  · rcases profEmail with _ | e
    · rfl
    · unfold adminProfile
      dsimp only
      split
      · rfl
      · split
        · rfl
        · rfl
  · exact arr_accounts_no_password db.admins
  · exact arr_accounts_no_password db.users

/-- C8: a registration (user or admin) whose email exactly matches a stored
record of the same collection is rejected with 400 "Email already registered"
and the store is returned unchanged. -/
theorem duplicate_email_rejected (dbU dbA : DB) (hash : String → String)
    (newId : String) (fn sn em pw : String) (pic : Option String)
    (hfn : fn ≠ "") (hsn : sn ≠ "") (hem : em ≠ "") (hpw : pw ≠ "")
    (hdupU : (dbU.users.find? (fun u => u.email == em)).isSome = true)
    (hdupA : (dbA.admins.find? (fun a => a.email == em)).isSome = true) :
    createUsers dbU hash newId ⟨some fn, some sn, some em, some pw, pic⟩
      = (⟨400, errBody "Email already registered"⟩, dbU) ∧
    createAdmins dbA hash newId ⟨some fn, some sn, some em, some pw, pic⟩
      = (⟨400, errBody "Email already registered"⟩, dbA) := by
  obtain ⟨u, hu⟩ := Option.isSome_iff_exists.mp hdupU
  obtain ⟨a, ha⟩ := Option.isSome_iff_exists.mp hdupA
  constructor
  · show createUsersChecked dbU hash newId fn sn em pw pic = _
    unfold createUsersChecked
    rw [if_neg (by simp [hfn, hsn, hem, hpw]), hu]
  · show createAdminsChecked dbA hash newId fn sn em pw pic = _
    unfold createAdminsChecked
    rw [if_neg (by simp [hfn, hsn, hem, hpw]), ha]

/-- Witness for C8: re-registering the stored email is rejected, store kept. -/
theorem duplicate_email_rejected_witness :
    createUsers db0 (fun s => s) "dddddddddddddddddddddddd"
      ⟨some "Bob", some "Jones", some "a@b.com", some "pw", none⟩
      = (⟨400, errBody "Email already registered"⟩, db0) ∧
    createAdmins db0 (fun s => s) "dddddddddddddddddddddddd"
      ⟨some "Bob", some "Jones", some "a@b.com", some "pw", none⟩
      = (⟨400, errBody "Email already registered"⟩, db0) :=
  duplicate_email_rejected db0 db0 (fun s => s) "dddddddddddddddddddddddd"
    "Bob" "Jones" "a@b.com" "pw" none
    (by decide) (by decide) (by decide) (by decide) (by decide) (by decide)

/-- C9: the profile-picture gate accepts exactly 1 MiB and rejects one byte
more with 413, and the upload gate accepts exactly 5 MiB and rejects one byte
more with 413. -/
theorem size_limit_boundaries :
    picSizeCheck 1048576 = none ∧
    picSizeCheck 1048577 = some (413, "Profile picture size exceeds 1MB limit") ∧
    imageSizeCheck 5242880 = none ∧
    imageSizeCheck 5242881 = some (413, "Image size exceeds 5MB limit") := by
  refine ⟨?_, ?_, ?_, ?_⟩ <;>
    simp [picSizeCheck, imageSizeCheck, fileSizeMiB] <;> norm_num

/-- C10: when the `ids` field of `/cart-items` is an array, no per-element
format validation happens before the batch lookup: an element that is not a
valid object id makes the cast inside the query throw, which surfaces as a
500 "Fetch failed" internal error, not a 400; only a non-array (or absent)
`ids` yields the 400 validation error. -/
theorem cartItems_invalid_id_500 (db : DB) (l : List String) (s : String)
    (hs : s ∈ l) (hbad : isValidObjectId s = false) :
    (cartItems db (IdsVal.arr l)).status = 500 ∧
    (cartItems db (IdsVal.arr l)).body = errBodyDetails "Fetch failed" castErrorMsg ∧
    cartItems db IdsVal.nonArray = ⟨400, errBody "IDs must be an array"⟩ ∧
    cartItems db IdsVal.missing = ⟨400, errBody "IDs must be an array"⟩ := by
  have hall : l.all isValidObjectId = false := by
    cases hAll : l.all isValidObjectId with
    | false => rfl
    | true =>
      have hvalid := List.all_eq_true.mp hAll s hs
      rw [hbad] at hvalid
      exact absurd hvalid (by decide)
  have hneg : ¬(l.all isValidObjectId = true) := by
    rw [hall]
    decide
  refine ⟨?_, ?_, rfl, rfl⟩
  · unfold cartItems
    dsimp only
    rw [if_neg hneg]
  · unfold cartItems
    dsimp only
    rw [if_neg hneg]

/-- Witness for C10: the array form with one malformed id gives a 500, the
non-array forms give 400. -/
theorem cartItems_invalid_id_500_witness :
    (cartItems db0 (IdsVal.arr ["zzz"])).status = 500 ∧
    (cartItems db0 (IdsVal.arr ["zzz"])).body = errBodyDetails "Fetch failed" castErrorMsg ∧
    cartItems db0 IdsVal.nonArray = ⟨400, errBody "IDs must be an array"⟩ ∧
    cartItems db0 IdsVal.missing = ⟨400, errBody "IDs must be an array"⟩ :=
  cartItems_invalid_id_500 db0 ["zzz"] "zzz" (by decide) (by decide)

end Ecom
